import Mathlib

/-!
Verification development for the Commute Briefing integration and its
Lothian-buses scraper microservice.

The Python sources are shallowly embedded:

* `src/custom_components/commute_briefing/coordinator.py` — the quota
  ledger (`check_daily_reset`, `can_call_api_auto`, `can_call_api_manual`),
  the two departure normalizers (`parse_transportapi_departures`,
  `parse_scraper_departures`), the fetch orchestration
  (`async_update_data`, `async_manual_refresh`) and the commute-day
  evaluator (`check_commute_day`).
* `src/scraper-microservice/app.py` — the `SimpleCache` TTL cache and the
  pure parsing core of `scrape_lothian_stop`.

Text is `List Char` (Python `str`); machine time is seconds since
midnight as a `Nat`; dates are abstract `Nat` day numbers; Python `int`
is `Int`.  Network and DOM I/O are passed in as explicit environment
values: an embedded function receives the data the Python code would
have read from the outside world and computes the same result the Python
code computes from it.
-/

namespace CommuteBriefing

/-- Python `str` as a list of characters. -/
abbrev Str := List Char

/-- A Lean string literal as a `Str`. -/
def chars (s : String) : Str := s.data

/-- `s.lower()`. -/
def lowerL (s : Str) : Str := s.map Char.toLower

/-- Python substring membership `needle in hay` (empty needle is in every string). -/
def containsL : Str → Str → Bool
  | [], needle => needle.isEmpty
  | c :: t, needle => needle.isPrefixOf (c :: t) || containsL t needle

/-- `s.strip()`: drop leading and trailing whitespace. -/
def pyStrip (s : Str) : Str :=
  ((s.dropWhile Char.isWhitespace).reverse.dropWhile Char.isWhitespace).reverse

/-- `s.split(sep)` for a one-character separator: keeps empty pieces,
`"".split(sep) == [""]`. -/
def pySplitChar (sep : Char) : Str → List Str
  | [] => [[]]
  | c :: t =>
    let r := pySplitChar sep t
    if c = sep then [] :: r
    else
      match r with
      | h :: t2 => (c :: h) :: t2
      | [] => [[c]]

/-- The value of a nonempty all-digit string, `none` otherwise. -/
def digitsToNat (l : Str) : Option Nat :=
  if l.isEmpty || !l.all Char.isDigit then none
  else some (l.foldl (fun a c => a * 10 + (c.toNat - 48)) 0)

/-- Python `int(s)` on a stripped decimal string with optional sign;
anything else raises `ValueError`, modelled as `none`. -/
def pyIntParse (s : Str) : Option Int :=
  match pyStrip s with
  | '+' :: ds => (digitsToNat ds).map Int.ofNat
  | '-' :: ds => (digitsToNat ds).map (fun n => -(n : Int))
  | ds => (digitsToNat ds).map Int.ofNat

/-- The first maximal run of digits in the string (`re.search` with a
digit-group pattern), `none` when the string holds no digit. -/
def firstDigitRun : Str → Option Str
  | [] => none
  | c :: t => if c.isDigit then some (c :: t.takeWhile Char.isDigit) else firstDigitRun t

/-- The number extracted by the digit-group search, if any. -/
def firstNumber (s : Str) : Option Nat :=
  (firstDigitRun s).bind digitsToNat

/-- coordinator.py line 174 / 237 / 318: split a comma-separated config
string, strip each piece, drop empty pieces. -/
def splitCommaStrip (s : Str) : List Str :=
  (pySplitChar ',' s).filterMap (fun r =>
    let t := pyStrip r
    if t.isEmpty then none else some t)

/-- coordinator.py lines 318-319: as `splitCommaStrip` but lowercased
(`k.strip().lower()`). -/
def splitCommaStripLower (s : Str) : List Str :=
  (pySplitChar ',' s).filterMap (fun r =>
    let t := pyStrip r
    if t.isEmpty then none else some (lowerL t))

/-- `datetime.strptime(s, time-of-day pattern)`: one or two digits for the
hour (0-23), a colon, one or two digits for the minute (0-59), nothing
else; failure (`ValueError`) is `none`. -/
def parseHM (s : Str) : Option (Nat × Nat) :=
  match pySplitChar ':' s with
  | [hs, ms] =>
    match digitsToNat hs, digitsToNat ms with
    | some h, some m =>
      if hs.length ≤ 2 && ms.length ≤ 2 && h ≤ 23 && m ≤ 59 then some (h, m) else none
    | _, _ => none
  | _ => none

/-- coordinator.py lines 189-199 and app.py lines 315-319: minutes until
the clock time `h:m`, measured from `nowSec` seconds after midnight
(`nowSec < 86400`); a time already in the past rolls to the next day, and
the seconds quotient truncates as Python `int(x / 60)` does for `x ≥ 0`. -/
def dueFromHM (nowSec h m : Nat) : Nat :=
  let dep := (h * 60 + m) * 60
  let dep2 := if dep < nowSec then dep + 86400 else dep
  (dep2 - nowSec) / 60

/-! ## Quota ledger (coordinator.py lines 67-122) -/

/-- The integration options read by the ledger and orchestrator. -/
structure Config where
  dailyQuota : Int
  reservedForManual : Int
  maxAutoCalls : Int
  busRoutes : Str
  deriving Repr, DecidableEq

/-- The coordinator's runtime counters: `_calls_today`,
`_auto_calls_today`, `_last_reset_date` (only its calendar date matters,
kept as an abstract day number). -/
structure LedgerState where
  callsToday : Int
  autoCallsToday : Int
  lastResetDate : Option Nat
  deriving Repr, DecidableEq

/-- coordinator.py lines 97-104, `_check_daily_reset`: zero both counters
and stamp today's date when the stored date is absent or differs from
today; otherwise leave the state alone. -/
def check_daily_reset (today : Nat) (s : LedgerState) : LedgerState :=
  match s.lastResetDate with
  | none => { callsToday := 0, autoCallsToday := 0, lastResetDate := some today }
  | some d =>
    if d ≠ today then { callsToday := 0, autoCallsToday := 0, lastResetDate := some today }
    else s

/-- coordinator.py lines 106-116, `can_call_api_auto`: run the daily-reset
check, then admit iff `calls_today < quota - reserved` and
`auto_calls_today < max_auto`.  Returns the (possibly reset) state the
method leaves behind together with the verdict. -/
def can_call_api_auto (cfg : Config) (today : Nat) (s : LedgerState) : LedgerState × Bool :=
  let s0 := check_daily_reset today s
  (s0, decide (s0.callsToday < cfg.dailyQuota - cfg.reservedForManual)
        && decide (s0.autoCallsToday < cfg.maxAutoCalls))

/-- coordinator.py lines 118-122, `can_call_api_manual`: run the
daily-reset check, then admit iff `calls_today < quota`. -/
def can_call_api_manual (cfg : Config) (today : Nat) (s : LedgerState) : LedgerState × Bool :=
  let s0 := check_daily_reset today s
  (s0, decide (s0.callsToday < cfg.dailyQuota))

theorem cdr_lastResetDate (today : Nat) (s : LedgerState) :
    (check_daily_reset today s).lastResetDate = some today := by
  unfold check_daily_reset
  cases h : s.lastResetDate with
  | none => rfl
  | some d =>
    by_cases hd : d = today <;> simp [hd, h]

theorem cdr_of_same_day (today : Nat) (s : LedgerState)
    (h : s.lastResetDate = some today) : check_daily_reset today s = s := by
  unfold check_daily_reset
  rw [h]
  simp

theorem cdr_of_other_day (today : Nat) (s : LedgerState)
    (h : s.lastResetDate ≠ some today) :
    check_daily_reset today s = ⟨0, 0, some today⟩ := by
  unfold check_daily_reset
  cases hl : s.lastResetDate with
  | none => rfl
  | some d =>
    have : d ≠ today := by
      intro hdt
      exact h (by rw [hl, hdt])
    simp [this]

theorem cdr_idem (today : Nat) (s : LedgerState) :
    check_daily_reset today (check_daily_reset today s) = check_daily_reset today s :=
  cdr_of_same_day today _ (cdr_lastResetDate today s)

/-- C1: after the daily-reset check, `can_call_api_auto` answers true iff
`callsToday < dailyQuota - reservedForManual` and
`autoCallsToday < maxAutoCalls`, and `can_call_api_manual` answers true
iff `callsToday < dailyQuota`. -/
theorem admission_predicates_characterized (cfg : Config) (today : Nat) (s : LedgerState) :
    ((can_call_api_auto cfg today s).2 = true ↔
      ((check_daily_reset today s).callsToday < cfg.dailyQuota - cfg.reservedForManual ∧
        (check_daily_reset today s).autoCallsToday < cfg.maxAutoCalls))
    ∧ ((can_call_api_manual cfg today s).2 = true ↔
      (check_daily_reset today s).callsToday < cfg.dailyQuota) := by
  constructor
  · simp [can_call_api_auto]
  · simp [can_call_api_manual]

/-! ## Departure data and the two normalizers (coordinator.py lines 170-244) -/

/-- One raw TransportAPI departure entry: the JSON fields the parser reads
(`dep.get(...)`); `none` is an absent key. -/
structure TRawDep where
  aimed_departure_time : Option Str
  expected_departure_time : Option Str
  best_departure_estimate : Option Str
  direction : Option Str
  deriving Repr, DecidableEq

/-- The TransportAPI JSON body: `departures` is a dict keyed by route
(an association list preserving insertion order). -/
structure TApiData where
  departures : List (Str × List TRawDep)
  deriving Repr, DecidableEq

/-- The outcome of the HTTP GET inside `_fetch_transportapi`: a 200
response with its JSON body, a non-200 status, or an `aiohttp.ClientError`. -/
inductive TApiResult where
  | ok (data : TApiData)
  | httpError
  | clientError
  deriving Repr, DecidableEq

/-- Whether the GET returned HTTP 200. -/
def TApiResult.isOk : TApiResult → Bool
  | .ok _ => true
  | _ => false

/-- Whether the GET returned HTTP 200 with a non-empty `departures` dict
(`data and data.get("departures")` truthy). -/
def TApiResult.okNonempty : TApiResult → Bool
  | .ok d => !d.departures.isEmpty
  | _ => false

/-- A standardized departure dict as the coordinator handles it: every
field is optional because these are plain Python dicts (`x.get(key)`).
`_parse_transportapi_departures` fills all keys; scraper dicts carry the
scraper JSON's keys. -/
structure Dep where
  route : Option Str
  due_mins : Option Int
  aimed : Option Str
  expected : Option Str
  destination : Option Str
  status : Option Str
  is_realtime : Option Bool
  deriving Repr, DecidableEq

/-- coordinator.py lines 231 and 243: the sort key
`x.get("due_mins") or 999`.  Python `or` takes the right operand when the
left is falsy, so an absent value AND the value 0 are both keyed 999. -/
def sortKeyDue : Option Int → Int
  | none => 999
  | some n => if n = 0 then 999 else n

/-- Stable ascending sort by an integer key, as Python `list.sort(key=...)`:
each element is inserted after every already-placed element whose key is
less than or equal to its own, so equal keys keep their original order. -/
def insertSorted (key : Dep → Int) (a : Dep) : List Dep → List Dep
  | [] => [a]
  | b :: bs => if key b ≤ key a then b :: insertSorted key a bs else a :: b :: bs

/-- Python's stable `list.sort(key=...)` (ascending). -/
def sortByKey (key : Dep → Int) (l : List Dep) : List Dep :=
  l.foldl (fun acc a => insertSorted key a acc) []

/-- coordinator.py lines 180-228: build one standardized dict from one raw
TransportAPI entry.  `expected` defaults to `aimed`, `best` defaults to
`expected or aimed`; `due_mins` comes from parsing `best` as a clock time
against the current moment (parse failure leaves it `None`); `status`
compares aimed and expected clock times.  The raw fields are modelled as
present-or-absent strings (the API emits strings, not JSON nulls), so the
code's `expected is not None` test is already true whenever it runs. -/
def mkApiDep (route : Str) (nowSec : Nat) (dep : TRawDep) : Dep :=
  let aimed := dep.aimed_departure_time.getD []
  let expected := dep.expected_departure_time.getD aimed
  let best := dep.best_departure_estimate.getD (if expected.isEmpty then aimed else expected)
  let due : Option Int :=
    if best.isEmpty then none
    else (parseHM best).map (fun p => (dueFromHM nowSec p.1 p.2 : Int))
  let status : Str :=
    if !aimed.isEmpty && !expected.isEmpty && aimed ≠ expected then
      match parseHM aimed, parseHM expected with
      | some a, some e =>
        if a.1 * 60 + a.2 < e.1 * 60 + e.2 then chars ("Late")
        else if e.1 * 60 + e.2 < a.1 * 60 + a.2 then chars ("Early")
        else chars ("On time")
      | _, _ => chars ("On time")
    else if !expected.isEmpty then chars ("On time")
    else chars ("Scheduled")
  { route := some route
    due_mins := due
    aimed := some aimed
    expected := some expected
    destination := some (dep.direction.getD [])
    status := some status
    is_realtime := some (expected ≠ aimed) }

/-- coordinator.py lines 170-232, `_parse_transportapi_departures`: drop
routes outside a non-empty allow-list, flatten the per-route lists in
order, then sort by the `or 999` key. -/
def parse_transportapi_departures (busRoutesCfg : Str) (nowSec : Nat)
    (raw : List (Str × List TRawDep)) : List Dep :=
  let allowlist := splitCommaStrip busRoutesCfg
  let deps := raw.foldl (fun acc rt =>
    if !allowlist.isEmpty && !allowlist.contains rt.1 then acc
    else acc ++ rt.2.map (mkApiDep rt.1 nowSec)) []
  sortByKey (fun d => sortKeyDue d.due_mins) deps

/-- coordinator.py lines 234-244, `_parse_scraper_departures`: keep only
allow-listed routes when the allow-list is non-empty (a dict without a
route key never matches), then sort by the `or 999` key. -/
def parse_scraper_departures (busRoutesCfg : Str) (raw : List Dep) : List Dep :=
  let allowlist := splitCommaStrip busRoutesCfg
  let deps :=
    if !allowlist.isEmpty then
      raw.filter (fun d =>
        match d.route with
        | some r => allowlist.contains r
        | none => false)
    else raw
  sortByKey (fun d => sortKeyDue d.due_mins) deps

/-! ## Fetch orchestration (coordinator.py lines 124-148, 246-274, 326-356) -/

/-- The scraper microservice's JSON body as the coordinator reads it. -/
structure ScrData where
  departures : List Dep
  deriving Repr, DecidableEq

/-- Whether the scraper fetch produced a body with a non-empty
`departures` list (`data and data.get("departures")` truthy);
`none` is a failed fetch. -/
def scrNonempty : Option ScrData → Bool
  | some d => !d.departures.isEmpty
  | none => false

/-- coordinator.py lines 124-148, `_fetch_transportapi`: a 200 response
increments `_calls_today` and yields the JSON body; any other outcome
leaves the ledger alone and yields `None`. -/
def fetch_transportapi (s : LedgerState) (resp : TApiResult) : LedgerState × Option TApiData :=
  match resp with
  | .ok d => ({ s with callsToday := s.callsToday + 1 }, some d)
  | .httpError => (s, none)
  | .clientError => (s, none)

/-- The data-source marker (`SOURCE_TRANSPORTAPI` / `SOURCE_SCRAPER` /
`SOURCE_NONE` of const.py). -/
inductive Source where
  | transportapi
  | scraper
  | nosource
  deriving Repr, DecidableEq

/-- The observable outcome of one fetch cycle: the ledger it leaves
behind, the departures and source it stores, and whether the scraper
fallback block ran. -/
structure CycleOut where
  ledger : LedgerState
  departures : List Dep
  source : Source
  fallbackTried : Bool
  deriving Repr, DecidableEq

/-- coordinator.py lines 258-264: the automatic-path primary attempt.
If `can_call_api_auto` admits, call TransportAPI; on a 200 body with a
non-empty departures dict, parse it, mark the source and increment
`_auto_calls_today` — note the increment happens only in this branch,
and the source stays marked even if the allow-list filters the parsed
list down to nothing. -/
def update_primary_phase (cfg : Config) (today nowSec : Nat) (s : LedgerState)
    (apiResp : TApiResult) : CycleOut :=
  let adm := can_call_api_auto cfg today s
  if adm.2 then
    match fetch_transportapi adm.1 apiResp with
    | (s2, some data) =>
      if !data.departures.isEmpty then
        { ledger := { s2 with autoCallsToday := s2.autoCallsToday + 1 }
          departures := parse_transportapi_departures cfg.busRoutes nowSec data.departures
          source := .transportapi
          fallbackTried := false }
      else { ledger := s2, departures := [], source := .nosource, fallbackTried := false }
    | (s2, none) => { ledger := s2, departures := [], source := .nosource, fallbackTried := false }
  else { ledger := adm.1, departures := [], source := .nosource, fallbackTried := false }

/-- coordinator.py lines 339-343: the manual-path primary attempt —
identical to the automatic one except that admission is
`can_call_api_manual` and `_auto_calls_today` is never touched. -/
def manual_primary_phase (cfg : Config) (today nowSec : Nat) (s : LedgerState)
    (apiResp : TApiResult) : CycleOut :=
  let adm := can_call_api_manual cfg today s
  if adm.2 then
    match fetch_transportapi adm.1 apiResp with
    | (s2, some data) =>
      if !data.departures.isEmpty then
        { ledger := s2
          departures := parse_transportapi_departures cfg.busRoutes nowSec data.departures
          source := .transportapi
          fallbackTried := false }
      else { ledger := s2, departures := [], source := .nosource, fallbackTried := false }
    | (s2, none) => { ledger := s2, departures := [], source := .nosource, fallbackTried := false }
  else { ledger := adm.1, departures := [], source := .nosource, fallbackTried := false }

/-- coordinator.py lines 266-271 (and identically 345-350): when the
primary attempt left no departures, fetch the scraper with no quota
check; a body with a non-empty departures list is parsed and marks the
source as the scraper — even when the allow-list then filters everything
out — while a failed fetch or an empty body leaves departures and source
as the primary attempt left them. -/
def apply_fallback (cfg : Config) (primary : CycleOut) (scrResp : Option ScrData) : CycleOut :=
  if primary.departures.isEmpty then
    match scrResp with
    | some data =>
      if !data.departures.isEmpty then
        { primary with
          departures := parse_scraper_departures cfg.busRoutes data.departures
          source := .scraper
          fallbackTried := true }
      else { primary with fallbackTried := true }
    | none => { primary with fallbackTried := true }
  else primary

/-- coordinator.py lines 246-274, `_async_update_data` (the fetch part):
daily-reset check, bail out with an empty snapshot when no primary stop
is configured, otherwise primary attempt then fallback. -/
def async_update_data (cfg : Config) (stop_code : Str) (today nowSec : Nat)
    (s : LedgerState) (apiResp : TApiResult) (scrResp : Option ScrData) : CycleOut :=
  let s0 := check_daily_reset today s
  if stop_code.isEmpty then
    { ledger := s0, departures := [], source := .nosource, fallbackTried := false }
  else apply_fallback cfg (update_primary_phase cfg today nowSec s0 apiResp) scrResp

/-- coordinator.py lines 326-353, `async_manual_refresh` up to the
`async_refresh()` call: daily-reset check, bail out when no stop is
configured, manual primary attempt, fallback. -/
def manual_fetch_phase (cfg : Config) (stop_code : Str) (today nowSec : Nat)
    (s : LedgerState) (apiResp : TApiResult) (scrResp : Option ScrData) : CycleOut :=
  let s0 := check_daily_reset today s
  if stop_code.isEmpty then
    { ledger := s0, departures := [], source := .nosource, fallbackTried := false }
  else apply_fallback cfg (manual_primary_phase cfg today nowSec s0 apiResp) scrResp

/-- coordinator.py lines 326-359, `async_manual_refresh` in full: the
manual fetch phase followed by `await self.async_refresh()`, which runs
`_async_update_data` — a second, automatic-path fetch cycle in the same
user action.  Each cycle gets its own environment responses. -/
def async_manual_refresh (cfg : Config) (stop_code : Str) (today nowSec : Nat)
    (s : LedgerState) (r1 : TApiResult) (f1 : Option ScrData)
    (r2 : TApiResult) (f2 : Option ScrData) : CycleOut × CycleOut :=
  let first := manual_fetch_phase cfg stop_code today nowSec s r1 f1
  let second := async_update_data cfg stop_code today nowSec first.ledger r2 f2
  (first, second)

theorem can_auto_of_cdr (cfg : Config) (today : Nat) (s : LedgerState) :
    can_call_api_auto cfg today (check_daily_reset today s) = can_call_api_auto cfg today s := by
  simp [can_call_api_auto, cdr_idem]

theorem can_manual_of_cdr (cfg : Config) (today : Nat) (s : LedgerState) :
    can_call_api_manual cfg today (check_daily_reset today s) = can_call_api_manual cfg today s := by
  simp [can_call_api_manual, cdr_idem]

theorem apply_fallback_ledger (cfg : Config) (p : CycleOut) (f : Option ScrData) :
    (apply_fallback cfg p f).ledger = p.ledger := by
  unfold apply_fallback
  by_cases h : p.departures.isEmpty <;> cases f <;> simp [h] <;> split <;> rfl

theorem upp_calls (cfg : Config) (today nowSec : Nat) (s : LedgerState) (r : TApiResult) :
    (update_primary_phase cfg today nowSec s r).ledger.callsToday =
      (check_daily_reset today s).callsToday +
        (if (can_call_api_auto cfg today s).2 && r.isOk then 1 else 0) := by
  have h1 : (can_call_api_auto cfg today s).1 = check_daily_reset today s := rfl
  unfold update_primary_phase fetch_transportapi
  cases r <;> by_cases hadm : (can_call_api_auto cfg today s).2 = true <;>
    simp [hadm, h1, TApiResult.isOk] <;> split <;> simp

theorem upp_auto (cfg : Config) (today nowSec : Nat) (s : LedgerState) (r : TApiResult) :
    (update_primary_phase cfg today nowSec s r).ledger.autoCallsToday =
      (check_daily_reset today s).autoCallsToday +
        (if (can_call_api_auto cfg today s).2 && r.okNonempty then 1 else 0) := by
  have h1 : (can_call_api_auto cfg today s).1 = check_daily_reset today s := rfl
  unfold update_primary_phase fetch_transportapi
  cases r with
  | ok d =>
    by_cases hadm : (can_call_api_auto cfg today s).2 = true <;>
      by_cases hne : d.departures.isEmpty <;>
      simp [hadm, hne, h1, TApiResult.okNonempty]
  | httpError =>
    by_cases hadm : (can_call_api_auto cfg today s).2 = true <;>
      simp [hadm, h1, TApiResult.okNonempty]
  | clientError =>
    by_cases hadm : (can_call_api_auto cfg today s).2 = true <;>
      simp [hadm, h1, TApiResult.okNonempty]

theorem upp_lastReset (cfg : Config) (today nowSec : Nat) (s : LedgerState) (r : TApiResult) :
    (update_primary_phase cfg today nowSec s r).ledger.lastResetDate = some today := by
  have h1 : (can_call_api_auto cfg today s).1 = check_daily_reset today s := rfl
  have h2 := cdr_lastResetDate today s
  unfold update_primary_phase fetch_transportapi
  cases r <;> by_cases hadm : (can_call_api_auto cfg today s).2 = true <;>
    simp [hadm, h1, h2] <;> split <;> simp [h2]

theorem mpp_calls (cfg : Config) (today nowSec : Nat) (s : LedgerState) (r : TApiResult) :
    (manual_primary_phase cfg today nowSec s r).ledger.callsToday =
      (check_daily_reset today s).callsToday +
        (if (can_call_api_manual cfg today s).2 && r.isOk then 1 else 0) := by
  have h1 : (can_call_api_manual cfg today s).1 = check_daily_reset today s := rfl
  unfold manual_primary_phase fetch_transportapi
  cases r <;> by_cases hadm : (can_call_api_manual cfg today s).2 = true <;>
    simp [hadm, h1, TApiResult.isOk] <;> split <;> simp

theorem mpp_auto (cfg : Config) (today nowSec : Nat) (s : LedgerState) (r : TApiResult) :
    (manual_primary_phase cfg today nowSec s r).ledger.autoCallsToday =
      (check_daily_reset today s).autoCallsToday := by
  have h1 : (can_call_api_manual cfg today s).1 = check_daily_reset today s := rfl
  unfold manual_primary_phase fetch_transportapi
  cases r <;> by_cases hadm : (can_call_api_manual cfg today s).2 = true <;>
    simp [hadm, h1] <;> split <;> simp

theorem mpp_lastReset (cfg : Config) (today nowSec : Nat) (s : LedgerState) (r : TApiResult) :
    (manual_primary_phase cfg today nowSec s r).ledger.lastResetDate = some today := by
  have h1 : (can_call_api_manual cfg today s).1 = check_daily_reset today s := rfl
  have h2 := cdr_lastResetDate today s
  unfold manual_primary_phase fetch_transportapi
  cases r <;> by_cases hadm : (can_call_api_manual cfg today s).2 = true <;>
    simp [hadm, h1, h2] <;> split <;> simp [h2]

theorem aud_calls (cfg : Config) (stop_code : Str) (today nowSec : Nat) (s : LedgerState)
    (r : TApiResult) (f : Option ScrData) :
    (async_update_data cfg stop_code today nowSec s r f).ledger.callsToday =
      (check_daily_reset today s).callsToday +
        (if !stop_code.isEmpty && (can_call_api_auto cfg today s).2 && r.isOk then 1 else 0) := by
  unfold async_update_data
  by_cases hstop : stop_code.isEmpty <;>
    simp [hstop, apply_fallback_ledger, upp_calls, can_auto_of_cdr, cdr_idem]

theorem aud_auto (cfg : Config) (stop_code : Str) (today nowSec : Nat) (s : LedgerState)
    (r : TApiResult) (f : Option ScrData) :
    (async_update_data cfg stop_code today nowSec s r f).ledger.autoCallsToday =
      (check_daily_reset today s).autoCallsToday +
        (if !stop_code.isEmpty && (can_call_api_auto cfg today s).2 && r.okNonempty
          then 1 else 0) := by
  unfold async_update_data
  by_cases hstop : stop_code.isEmpty <;>
    simp [hstop, apply_fallback_ledger, upp_auto, can_auto_of_cdr, cdr_idem]

theorem aud_lastReset (cfg : Config) (stop_code : Str) (today nowSec : Nat) (s : LedgerState)
    (r : TApiResult) (f : Option ScrData) :
    (async_update_data cfg stop_code today nowSec s r f).ledger.lastResetDate = some today := by
  unfold async_update_data
  by_cases hstop : stop_code.isEmpty <;>
    simp [hstop, apply_fallback_ledger, upp_lastReset, cdr_lastResetDate]

theorem mfp_calls (cfg : Config) (stop_code : Str) (today nowSec : Nat) (s : LedgerState)
    (r : TApiResult) (f : Option ScrData) :
    (manual_fetch_phase cfg stop_code today nowSec s r f).ledger.callsToday =
      (check_daily_reset today s).callsToday +
        (if !stop_code.isEmpty && (can_call_api_manual cfg today s).2 && r.isOk
          then 1 else 0) := by
  unfold manual_fetch_phase
  by_cases hstop : stop_code.isEmpty <;>
    simp [hstop, apply_fallback_ledger, mpp_calls, can_manual_of_cdr, cdr_idem]

theorem mfp_auto (cfg : Config) (stop_code : Str) (today nowSec : Nat) (s : LedgerState)
    (r : TApiResult) (f : Option ScrData) :
    (manual_fetch_phase cfg stop_code today nowSec s r f).ledger.autoCallsToday =
      (check_daily_reset today s).autoCallsToday := by
  unfold manual_fetch_phase
  by_cases hstop : stop_code.isEmpty <;>
    simp [hstop, apply_fallback_ledger, mpp_auto, cdr_idem]

theorem mfp_lastReset (cfg : Config) (stop_code : Str) (today nowSec : Nat) (s : LedgerState)
    (r : TApiResult) (f : Option ScrData) :
    (manual_fetch_phase cfg stop_code today nowSec s r f).ledger.lastResetDate = some today := by
  unfold manual_fetch_phase
  by_cases hstop : stop_code.isEmpty <;>
    simp [hstop, apply_fallback_ledger, mpp_lastReset, cdr_lastResetDate]

/-! ## Claim C2: counter invariants over ledger operations -/

/-- One ledger operation of the coordinator: an admission check, a counter
read (the `calls_today` / `auto_calls_today` properties), a background
fetch cycle, or a manual refresh (with the environment responses each
fetch inside it sees). -/
inductive LedgerOp where
  | admissionAuto
  | admissionManual
  | readCalls
  | readAuto
  | updateCycle (r : TApiResult) (f : Option ScrData)
  | manualRefresh (r1 : TApiResult) (f1 : Option ScrData) (r2 : TApiResult) (f2 : Option ScrData)
  deriving Repr

/-- The ledger state each operation leaves behind when run on a given day. -/
def applyLedgerOp (cfg : Config) (stop_code : Str) (nowSec today : Nat)
    (s : LedgerState) : LedgerOp → LedgerState
  | .admissionAuto => (can_call_api_auto cfg today s).1
  | .admissionManual => (can_call_api_manual cfg today s).1
  | .readCalls => check_daily_reset today s
  | .readAuto => check_daily_reset today s
  | .updateCycle r f => (async_update_data cfg stop_code today nowSec s r f).ledger
  | .manualRefresh r1 f1 r2 f2 =>
    ((async_manual_refresh cfg stop_code today nowSec s r1 f1 r2 f2).2).ledger

theorem applyLedgerOp_shape (cfg : Config) (stop_code : Str) (nowSec today : Nat)
    (s : LedgerState) (op : LedgerOp) :
    ∃ a b : Nat,
      (applyLedgerOp cfg stop_code nowSec today s op).callsToday =
          (check_daily_reset today s).callsToday + (a : Int)
        ∧ (applyLedgerOp cfg stop_code nowSec today s op).autoCallsToday =
          (check_daily_reset today s).autoCallsToday + (b : Int)
        ∧ (applyLedgerOp cfg stop_code nowSec today s op).lastResetDate = some today := by
  cases op with
  | admissionAuto =>
    exact ⟨0, 0, by simp [applyLedgerOp, can_call_api_auto, cdr_lastResetDate]⟩
  | admissionManual =>
    exact ⟨0, 0, by simp [applyLedgerOp, can_call_api_manual, cdr_lastResetDate]⟩
  | readCalls => exact ⟨0, 0, by simp [applyLedgerOp, cdr_lastResetDate]⟩
  | readAuto => exact ⟨0, 0, by simp [applyLedgerOp, cdr_lastResetDate]⟩
  | updateCycle r f =>
    refine ⟨if !stop_code.isEmpty && (can_call_api_auto cfg today s).2 && r.isOk then 1 else 0,
      if !stop_code.isEmpty && (can_call_api_auto cfg today s).2 && r.okNonempty then 1 else 0,
      ?_, ?_, ?_⟩
    · rw [applyLedgerOp, aud_calls]
      split <;> simp
    · rw [applyLedgerOp, aud_auto]
      split <;> simp
    · rw [applyLedgerOp, aud_lastReset]
  | manualRefresh r1 f1 r2 f2 =>
    have hfst := mfp_lastReset cfg stop_code today nowSec s r1 f1
    have hkey :
        check_daily_reset today
            (manual_fetch_phase cfg stop_code today nowSec s r1 f1).ledger =
          (manual_fetch_phase cfg stop_code today nowSec s r1 f1).ledger :=
      cdr_of_same_day today _ hfst
    refine ⟨(if !stop_code.isEmpty && (can_call_api_manual cfg today s).2 && r1.isOk
          then 1 else 0) +
        (if !stop_code.isEmpty &&
            (can_call_api_auto cfg today
              (manual_fetch_phase cfg stop_code today nowSec s r1 f1).ledger).2 &&
            r2.isOk then 1 else 0),
      if !stop_code.isEmpty &&
          (can_call_api_auto cfg today
            (manual_fetch_phase cfg stop_code today nowSec s r1 f1).ledger).2 &&
          r2.okNonempty then 1 else 0, ?_, ?_, ?_⟩
    · show (async_update_data cfg stop_code today nowSec
          (manual_fetch_phase cfg stop_code today nowSec s r1 f1).ledger r2 f2).ledger.callsToday
          = _
      rw [aud_calls, hkey, mfp_calls]
      split <;> split <;> simp <;> omega
    · show (async_update_data cfg stop_code today nowSec
          (manual_fetch_phase cfg stop_code today nowSec s r1 f1).ledger r2 f2).ledger.autoCallsToday
          = _
      rw [aud_auto, hkey, mfp_auto]
      split <;> simp
    · show (async_update_data cfg stop_code today nowSec
          (manual_fetch_phase cfg stop_code today nowSec s r1 f1).ledger r2 f2).ledger.lastResetDate
          = _
      rw [aud_lastReset]

/-- C2: over the modelled ledger operations (admission checks, counter
reads, fetch cycles, manual refreshes), run on day `today`: non-negative
counters stay non-negative; when the stored reset date already is today
the counters never decrease (monotone within one calendar day); when it
differs (or is absent) the daily-reset check zeroes both counters
together and stamps today; the whole operation equals the operation run
on the already-reset state (the reset happens once, at the start of the
first access); and the resulting state is stamped with today, so no
later operation on the same day resets again. -/
theorem daily_counters_invariant (cfg : Config) (stop_code : Str) (nowSec today : Nat)
    (s : LedgerState) (op : LedgerOp) :
    (0 ≤ s.callsToday → 0 ≤ s.autoCallsToday →
      0 ≤ (applyLedgerOp cfg stop_code nowSec today s op).callsToday ∧
      0 ≤ (applyLedgerOp cfg stop_code nowSec today s op).autoCallsToday)
    ∧ (s.lastResetDate = some today →
      s.callsToday ≤ (applyLedgerOp cfg stop_code nowSec today s op).callsToday ∧
      s.autoCallsToday ≤ (applyLedgerOp cfg stop_code nowSec today s op).autoCallsToday)
    ∧ (s.lastResetDate ≠ some today →
      check_daily_reset today s = ⟨0, 0, some today⟩)
    ∧ applyLedgerOp cfg stop_code nowSec today s op =
      applyLedgerOp cfg stop_code nowSec today (check_daily_reset today s) op
    ∧ (applyLedgerOp cfg stop_code nowSec today s op).lastResetDate = some today := by
  obtain ⟨a, b, hc, ha, hl⟩ := applyLedgerOp_shape cfg stop_code nowSec today s op
  refine ⟨?_, ?_, cdr_of_other_day today s, ?_, hl⟩
  · intro h1 h2
    constructor
    · rw [hc]
      rcases hd : s.lastResetDate with _ | d
      · rw [cdr_of_other_day today s (by simp [hd])]
        dsimp only
        omega
      · by_cases hdt : d = today
        · rw [cdr_of_same_day today s (by rw [hd, hdt])]
          omega
        · rw [cdr_of_other_day today s (by simp [hd, hdt])]
          dsimp only
          omega
    · rw [ha]
      rcases hd : s.lastResetDate with _ | d
      · rw [cdr_of_other_day today s (by simp [hd])]
        dsimp only
        omega
      · by_cases hdt : d = today
        · rw [cdr_of_same_day today s (by rw [hd, hdt])]
          omega
        · rw [cdr_of_other_day today s (by simp [hd, hdt])]
          dsimp only
          omega
  · intro h
    rw [cdr_of_same_day today s h] at hc ha
    constructor
    · rw [hc]
      omega
    · rw [ha]
      omega
  · cases op with
    | admissionAuto => simp [applyLedgerOp, can_auto_of_cdr]
    | admissionManual => simp [applyLedgerOp, can_manual_of_cdr]
    | readCalls => simp [applyLedgerOp, cdr_idem]
    | readAuto => simp [applyLedgerOp, cdr_idem]
    | updateCycle r f => simp only [applyLedgerOp, async_update_data, cdr_idem]
    | manualRefresh r1 f1 r2 f2 =>
      simp only [applyLedgerOp, async_manual_refresh, manual_fetch_phase, cdr_idem]

/-- The invariant theorem applied at a concrete reset point: on day 6,
from a day-5 state with counters (3, 2), a background fetch cycle that
gets a 200 with one departure first zeroes both counters, then bills the
call: it ends with `callsToday = 1`, `autoCallsToday = 1`, stamped day 6. -/
theorem daily_counters_invariant_witness :
    check_daily_reset 6 ⟨3, 2, some 5⟩ = ⟨0, 0, some 6⟩
    ∧ (applyLedgerOp ⟨50, 10, 20, []⟩ (chars ("36232")) 30000 6 ⟨3, 2, some 5⟩
        (.updateCycle (.ok ⟨[(chars ("44"), [⟨none, none, none, none⟩])]⟩) none)).lastResetDate
        = some 6
    ∧ (applyLedgerOp ⟨50, 10, 20, []⟩ (chars ("36232")) 30000 6 ⟨3, 2, some 5⟩
        (.updateCycle (.ok ⟨[(chars ("44"), [⟨none, none, none, none⟩])]⟩) none)).callsToday = 1
    ∧ (applyLedgerOp ⟨50, 10, 20, []⟩ (chars ("36232")) 30000 6 ⟨3, 2, some 5⟩
        (.updateCycle (.ok ⟨[(chars ("44"), [⟨none, none, none, none⟩])]⟩) none)).autoCallsToday
        = 1 := by
  refine ⟨(daily_counters_invariant ⟨50, 10, 20, []⟩ (chars ("36232")) 30000 6 ⟨3, 2, some 5⟩
      (.updateCycle (.ok ⟨[(chars ("44"), [⟨none, none, none, none⟩])]⟩) none)).2.2.1
      (by decide), (daily_counters_invariant ⟨50, 10, 20, []⟩ (chars ("36232")) 30000 6
      ⟨3, 2, some 5⟩
      (.updateCycle (.ok ⟨[(chars ("44"), [⟨none, none, none, none⟩])]⟩) none)).2.2.2.2,
      ?_, ?_⟩ <;> decide

/-! ## Claim C3: what one admitted primary call does to the counters -/

/-- C3 fails as stated: an admitted automatic call that gets HTTP 200
with an empty departures dict is billed against `callsToday` (the
increment sits in `_fetch_transportapi`, keyed on the status code alone)
but `autoCallsToday` is not incremented (that increment sits in
`_async_update_data`, keyed on a non-empty payload) — so for this
admitted automatic call `autoCallsToday` is not incremented by one. -/
theorem record_call_counterexample :
    (can_call_api_auto ⟨10, 2, 6, []⟩ 0 ⟨0, 0, some 0⟩).2 = true
    ∧ (async_update_data ⟨10, 2, 6, []⟩ (chars ("36232")) 0 30000 ⟨0, 0, some 0⟩
        (.ok ⟨[]⟩) none).ledger.callsToday = 1
    ∧ (async_update_data ⟨10, 2, 6, []⟩ (chars ("36232")) 0 30000 ⟨0, 0, some 0⟩
        (.ok ⟨[]⟩) none).ledger.autoCallsToday = 0 := by
  decide

/-- C3 amended: for an admitted automatic cycle, `callsToday` grows by
exactly one iff the HTTP fetch returned 200, and `autoCallsToday` grows
by exactly one iff it returned 200 with a non-empty departures dict; the
manual path never touches `autoCallsToday`, and for an admitted manual
cycle `callsToday` grows by exactly one iff the fetch returned 200. -/
theorem record_call_amended (cfg : Config) (stop_code : Str) (today nowSec : Nat)
    (s : LedgerState) (r : TApiResult) (f : Option ScrData) :
    (stop_code.isEmpty = false → (can_call_api_auto cfg today s).2 = true →
      ((async_update_data cfg stop_code today nowSec s r f).ledger.callsToday =
          (check_daily_reset today s).callsToday + 1 ↔ r.isOk = true)
      ∧ ((async_update_data cfg stop_code today nowSec s r f).ledger.autoCallsToday =
          (check_daily_reset today s).autoCallsToday + 1 ↔ r.okNonempty = true))
    ∧ (manual_fetch_phase cfg stop_code today nowSec s r f).ledger.autoCallsToday =
        (check_daily_reset today s).autoCallsToday
    ∧ (stop_code.isEmpty = false → (can_call_api_manual cfg today s).2 = true →
      ((manual_fetch_phase cfg stop_code today nowSec s r f).ledger.callsToday =
          (check_daily_reset today s).callsToday + 1 ↔ r.isOk = true)) := by
  refine ⟨fun hstop hadm => ⟨?_, ?_⟩, mfp_auto cfg stop_code today nowSec s r f,
    fun hstop hadm => ?_⟩
  · rw [aud_calls]
    simp only [hstop, hadm, Bool.not_false, Bool.true_and]
    cases hr : r.isOk <;> simp <;> omega
  · rw [aud_auto]
    simp only [hstop, hadm, Bool.not_false, Bool.true_and]
    cases hr : r.okNonempty <;> simp <;> omega
  · rw [mfp_calls]
    simp only [hstop, hadm, Bool.not_false, Bool.true_and]
    cases hr : r.isOk <;> simp <;> omega

/-- The amended statement applied at a concrete admitted automatic cycle
whose fetch gets HTTP 200 with one departure: both hypotheses hold and
both counters grow by one. -/
theorem record_call_amended_witness :
    ((async_update_data ⟨10, 2, 6, []⟩ (chars ("36232")) 0 30000 ⟨0, 0, some 0⟩
        (.ok ⟨[(chars ("44"), [⟨none, none, none, none⟩])]⟩) none).ledger.callsToday =
      (check_daily_reset 0 ⟨0, 0, some 0⟩).callsToday + 1 ↔
        TApiResult.isOk (.ok ⟨[(chars ("44"), [⟨none, none, none, none⟩])]⟩) = true)
    ∧ ((async_update_data ⟨10, 2, 6, []⟩ (chars ("36232")) 0 30000 ⟨0, 0, some 0⟩
        (.ok ⟨[(chars ("44"), [⟨none, none, none, none⟩])]⟩) none).ledger.autoCallsToday =
      (check_daily_reset 0 ⟨0, 0, some 0⟩).autoCallsToday + 1 ↔
        TApiResult.okNonempty (.ok ⟨[(chars ("44"), [⟨none, none, none, none⟩])]⟩) = true) :=
  (record_call_amended ⟨10, 2, 6, []⟩ (chars ("36232")) 0 30000 ⟨0, 0, some 0⟩
    (.ok ⟨[(chars ("44"), [⟨none, none, none, none⟩])]⟩) none).1 (by decide) (by decide)

/-! ## Claim C4: one manual refresh can bill two primary calls -/

/-- C4: a reachable configuration and state in which both admission
predicates answer true and the primary source returns departures, where
one `async_manual_refresh` performs a manual-path primary fetch and then,
through the `async_refresh()` it triggers, a second automatic-path
primary fetch: `callsToday` ends at 2 after the single user action. -/
theorem manual_refresh_double_fetch :
    (can_call_api_manual ⟨10, 2, 6, []⟩ 7 ⟨0, 0, some 7⟩).2 = true
    ∧ (can_call_api_auto ⟨10, 2, 6, []⟩ 7
        (manual_fetch_phase ⟨10, 2, 6, []⟩ (chars ("36232")) 7 30000 ⟨0, 0, some 7⟩
          (.ok ⟨[(chars ("44"),
            [⟨some (chars ("09:00")), none, none, some (chars ("City Centre"))⟩])]⟩)
          none).ledger).2 = true
    ∧ (manual_fetch_phase ⟨10, 2, 6, []⟩ (chars ("36232")) 7 30000 ⟨0, 0, some 7⟩
        (.ok ⟨[(chars ("44"),
          [⟨some (chars ("09:00")), none, none, some (chars ("City Centre"))⟩])]⟩)
        none).source = Source.transportapi
    ∧ ((async_manual_refresh ⟨10, 2, 6, []⟩ (chars ("36232")) 7 30000 ⟨0, 0, some 7⟩
        (.ok ⟨[(chars ("44"),
          [⟨some (chars ("09:00")), none, none, some (chars ("City Centre"))⟩])]⟩)
        none
        (.ok ⟨[(chars ("44"),
          [⟨some (chars ("09:00")), none, none, some (chars ("City Centre"))⟩])]⟩)
        none).2).ledger.callsToday = 2
    ∧ ((async_manual_refresh ⟨10, 2, 6, []⟩ (chars ("36232")) 7 30000 ⟨0, 0, some 7⟩
        (.ok ⟨[(chars ("44"),
          [⟨some (chars ("09:00")), none, none, some (chars ("City Centre"))⟩])]⟩)
        none
        (.ok ⟨[(chars ("44"),
          [⟨some (chars ("09:00")), none, none, some (chars ("City Centre"))⟩])]⟩)
        none).2).ledger.autoCallsToday = 1 := by
  decide

/-! ## Claim C5: fallback ordering and the final source marker -/

theorem upp_fallbackTried (cfg : Config) (today nowSec : Nat) (s : LedgerState)
    (r : TApiResult) :
    (update_primary_phase cfg today nowSec s r).fallbackTried = false := by
  unfold update_primary_phase fetch_transportapi
  cases r <;> by_cases hadm : (can_call_api_auto cfg today s).2 = true <;>
    simp [hadm] <;> split <;> rfl

theorem upp_nosource_empty (cfg : Config) (today nowSec : Nat) (s : LedgerState)
    (r : TApiResult) (h : (update_primary_phase cfg today nowSec s r).source = .nosource) :
    (update_primary_phase cfg today nowSec s r).departures = [] := by
  unfold update_primary_phase fetch_transportapi at *
  cases r with
  | ok d =>
    by_cases hadm : (can_call_api_auto cfg today s).2 = true <;>
      by_cases hne : d.departures.isEmpty <;> simp_all
  | httpError =>
    by_cases hadm : (can_call_api_auto cfg today s).2 = true <;> simp_all
  | clientError =>
    by_cases hadm : (can_call_api_auto cfg today s).2 = true <;> simp_all

theorem apply_fallback_tried (cfg : Config) (p : CycleOut) (f : Option ScrData)
    (hp : p.fallbackTried = false) :
    (apply_fallback cfg p f).fallbackTried = p.departures.isEmpty := by
  unfold apply_fallback
  by_cases h : p.departures.isEmpty <;> cases f <;> simp [h, hp] <;> split <;> simp [hp]

theorem apply_fallback_nothing (cfg : Config) (p : CycleOut) (f : Option ScrData)
    (hf : scrNonempty f = false) :
    (apply_fallback cfg p f).source = p.source
    ∧ (apply_fallback cfg p f).departures = p.departures := by
  unfold apply_fallback
  cases f with
  | none => by_cases h : p.departures.isEmpty <;> simp [h]
  | some d =>
    have : d.departures.isEmpty = true := by
      simpa [scrNonempty] using hf
    by_cases h : p.departures.isEmpty <;> simp [h, this]

theorem apply_fallback_scraped (cfg : Config) (p : CycleOut) (d : ScrData)
    (hp : p.departures.isEmpty = true) (hd : d.departures.isEmpty = false) :
    (apply_fallback cfg p (some d)).source = .scraper
    ∧ (apply_fallback cfg p (some d)).departures =
        parse_scraper_departures cfg.busRoutes d.departures := by
  unfold apply_fallback
  simp [hp, hd]

/-- C5 fails in its source-None part: with an allow-list of route 12, an
admitted primary call that returns HTTP 200 whose only departures are on
route X4 parses to an empty list (zero departures after route
filtering), so the fallback is invoked; when the fallback then yields
nothing, the returned snapshot keeps `source = transportapi` — not
`source = None` as the claim states — alongside the empty list. -/
theorem fallback_source_counterexample :
    (async_update_data ⟨10, 2, 6, chars ("12")⟩ (chars ("36232")) 0 30000 ⟨0, 0, some 0⟩
      (.ok ⟨[(chars ("X4"),
        [⟨some (chars ("09:00")), none, none, some (chars ("City Centre"))⟩])]⟩)
      none).fallbackTried = true
    ∧ (async_update_data ⟨10, 2, 6, chars ("12")⟩ (chars ("36232")) 0 30000 ⟨0, 0, some 0⟩
      (.ok ⟨[(chars ("X4"),
        [⟨some (chars ("09:00")), none, none, some (chars ("City Centre"))⟩])]⟩)
      none).departures = []
    ∧ (async_update_data ⟨10, 2, 6, chars ("12")⟩ (chars ("36232")) 0 30000 ⟨0, 0, some 0⟩
      (.ok ⟨[(chars ("X4"),
        [⟨some (chars ("09:00")), none, none, some (chars ("City Centre"))⟩])]⟩)
      none).source = Source.transportapi := by
  decide

/-- C5 amended: when a primary stop is configured, the fallback block
runs exactly when the primary attempt left an empty departure list
(skipped by admission, failed, or emptied by route filtering) — with no
quota condition of any kind; a fallback that fails or returns an empty
raw list leaves the snapshot's departures and source exactly as the
primary attempt left them; whenever the primary attempt's marker is
`SOURCE_NONE` (skipped or failed — though not when filtering emptied a
non-empty 200 payload) its list is empty, so a fetch cycle whose primary
was skipped or failed and whose fallback yielded nothing returns
`source = None` with an empty list; and a fallback that returns a
non-empty raw list marks the snapshot `SOURCE_SCRAPER` with the parsed
list — even when route filtering empties it. -/
theorem fallback_behaviour_amended (cfg : Config) (stop_code : Str) (today nowSec : Nat)
    (s : LedgerState) (r : TApiResult) (f : Option ScrData) :
    (stop_code.isEmpty = false →
      (async_update_data cfg stop_code today nowSec s r f).fallbackTried =
        (update_primary_phase cfg today nowSec (check_daily_reset today s) r).departures.isEmpty)
    ∧ (stop_code.isEmpty = false → scrNonempty f = false →
      (async_update_data cfg stop_code today nowSec s r f).source =
        (update_primary_phase cfg today nowSec (check_daily_reset today s) r).source
      ∧ (async_update_data cfg stop_code today nowSec s r f).departures =
        (update_primary_phase cfg today nowSec (check_daily_reset today s) r).departures)
    ∧ ((update_primary_phase cfg today nowSec (check_daily_reset today s) r).source =
        .nosource →
      (update_primary_phase cfg today nowSec (check_daily_reset today s) r).departures = [])
    ∧ (stop_code.isEmpty = false →
      (update_primary_phase cfg today nowSec (check_daily_reset today s) r).departures.isEmpty
        = true →
      ∀ d, f = some d → d.departures.isEmpty = false →
        (async_update_data cfg stop_code today nowSec s r f).source = .scraper
        ∧ (async_update_data cfg stop_code today nowSec s r f).departures =
          parse_scraper_departures cfg.busRoutes d.departures) := by
  refine ⟨fun hstop => ?_, fun hstop hf => ?_, upp_nosource_empty cfg today nowSec _ r,
    fun hstop hempty d hf hd => ?_⟩
  · unfold async_update_data
    simp only [hstop, Bool.false_eq_true, if_false]
    exact apply_fallback_tried cfg _ f (upp_fallbackTried cfg today nowSec _ r)
  · unfold async_update_data
    simp only [hstop, Bool.false_eq_true, if_false]
    exact apply_fallback_nothing cfg _ f hf
  · unfold async_update_data
    simp only [hstop, Bool.false_eq_true, if_false]
    subst hf
    exact apply_fallback_scraped cfg _ d hempty hd

/-- The amended statement applied at two concrete skipped-primary cycles
(quota exhausted: 10 calls already made today): with a failed fallback
the fallback block ran and the snapshot keeps the primary attempt's
marker and empty list; with a fallback returning one route-X4 departure
against allow-list "12" the snapshot is marked `SOURCE_SCRAPER` with the
parsed list, which filtering has emptied. -/
theorem fallback_behaviour_amended_witness :
    (async_update_data ⟨10, 2, 6, []⟩ (chars ("36232")) 3 30000 ⟨10, 6, some 3⟩
        .httpError none).fallbackTried =
      (update_primary_phase ⟨10, 2, 6, []⟩ 3 30000
        (check_daily_reset 3 ⟨10, 6, some 3⟩) .httpError).departures.isEmpty
    ∧ ((async_update_data ⟨10, 2, 6, []⟩ (chars ("36232")) 3 30000 ⟨10, 6, some 3⟩
        .httpError none).source =
      (update_primary_phase ⟨10, 2, 6, []⟩ 3 30000
        (check_daily_reset 3 ⟨10, 6, some 3⟩) .httpError).source
      ∧ (async_update_data ⟨10, 2, 6, []⟩ (chars ("36232")) 3 30000 ⟨10, 6, some 3⟩
        .httpError none).departures =
      (update_primary_phase ⟨10, 2, 6, []⟩ 3 30000
        (check_daily_reset 3 ⟨10, 6, some 3⟩) .httpError).departures)
    ∧ ((async_update_data ⟨10, 2, 6, chars ("12")⟩ (chars ("36232")) 3 30000 ⟨10, 6, some 3⟩
        .httpError
        (some ⟨[⟨some (chars ("X4")), some 7, none, none, none, none, none⟩]⟩)).source =
        Source.scraper
      ∧ (async_update_data ⟨10, 2, 6, chars ("12")⟩ (chars ("36232")) 3 30000 ⟨10, 6, some 3⟩
        .httpError
        (some ⟨[⟨some (chars ("X4")), some 7, none, none, none, none, none⟩]⟩)).departures =
        parse_scraper_departures (chars ("12"))
          [⟨some (chars ("X4")), some 7, none, none, none, none, none⟩])
    ∧ parse_scraper_departures (chars ("12"))
        [⟨some (chars ("X4")), some 7, none, none, none, none, none⟩] = [] :=
  ⟨(fallback_behaviour_amended ⟨10, 2, 6, []⟩ (chars ("36232")) 3 30000 ⟨10, 6, some 3⟩
      .httpError none).1 (by decide),
    (fallback_behaviour_amended ⟨10, 2, 6, []⟩ (chars ("36232")) 3 30000 ⟨10, 6, some 3⟩
      .httpError none).2.1 (by decide) (by decide),
    (fallback_behaviour_amended ⟨10, 2, 6, chars ("12")⟩ (chars ("36232")) 3 30000
      ⟨10, 6, some 3⟩ .httpError
      (some ⟨[⟨some (chars ("X4")), some 7, none, none, none, none, none⟩]⟩)).2.2.2
      (by decide) (by decide)
      ⟨[⟨some (chars ("X4")), some 7, none, none, none, none, none⟩]⟩ rfl (by decide),
    by decide⟩

/-! ## Claim C6: the `or 999` sort key -/

/-- C6 evaluated at the failing input: a scraper payload already sorted
ascending by `due_mins` — a due-now bus (route 44, 0 minutes) followed by
route 30 in 5 minutes — is REVERSED by `_parse_scraper_departures`,
because the Python sort key `x.get("due_mins") or 999` treats the
present value 0 as falsy and keys it 999, exactly like an absent value.
So the output is not ascending by `due_mins`, and normalizing an
already-sorted list does not preserve its order. -/
theorem sort_sentinel_bug_eval :
    parse_scraper_departures []
        [{ route := some (chars ("44")), due_mins := some 0, aimed := some (chars ("Due")),
           expected := some (chars ("Due")), destination := none,
           status := some (chars ("Scheduled")), is_realtime := none },
         { route := some (chars ("30")), due_mins := some 5, aimed := some (chars ("5 mins")),
           expected := some (chars ("5 mins")), destination := none,
           status := some (chars ("Scheduled")), is_realtime := none }] =
      [{ route := some (chars ("30")), due_mins := some 5, aimed := some (chars ("5 mins")),
         expected := some (chars ("5 mins")), destination := none,
         status := some (chars ("Scheduled")), is_realtime := none },
       { route := some (chars ("44")), due_mins := some 0, aimed := some (chars ("Due")),
         expected := some (chars ("Due")), destination := none,
         status := some (chars ("Scheduled")), is_realtime := none }]
    ∧ sortKeyDue (some 0) = 999
    ∧ sortKeyDue none = 999 := by
  decide

/-! ## Scraper microservice data model (app.py lines 48-63) -/

/-- app.py lines 48-54, `BusDeparture`: note `due_mins` is a plain
required `int` — the model has no way to carry an absent due time. -/
structure BusDeparture where
  route : Str
  due_mins : Int
  aimed : Option Str
  expected : Option Str
  destination : Option Str
  status : Str
  deriving Repr, DecidableEq

/-- app.py lines 57-63, `StopDepartures`. -/
structure StopDepartures where
  stop_code : Str
  stop_name : Option Str
  generated_at : Str
  departures : List BusDeparture
  error : Option Str
  cached : Bool
  deriving Repr, DecidableEq

/-! ## Claim C7: the TTL cache (app.py lines 70-107) -/

/-- app.py lines 70-73, `CacheEntry`. -/
structure CacheEntry where
  data : StopDepartures
  expires_at : Nat
  deriving Repr, DecidableEq

/-- The `SimpleCache` dict, keyed by stop code.  The per-call lock makes
each get/set/clear atomic, so the functional model is one operation at a
time on this map. -/
abbrev Cache := List (Str × CacheEntry)

def lookupCache (key : Str) : Cache → Option CacheEntry
  | [] => none
  | (k, e) :: t => if k = key then some e else lookupCache key t

def cacheDelete (key : Str) : Cache → Cache
  | [] => []
  | (k, e) :: t => if k = key then cacheDelete key t else (k, e) :: cacheDelete key t

/-- app.py lines 82-94, `SimpleCache.get`: a hit strictly before
`expires_at` hands out `entry.data.model_copy()` with `cached = True` on
the copy, leaving the stored entry untouched; an expired entry is
deleted and the get answers `None`. -/
def cacheGet (now : Nat) (c : Cache) (key : Str) : Option StopDepartures × Cache :=
  match lookupCache key c with
  | some e =>
    if now < e.expires_at then (some { e.data with cached := true }, c)
    else (none, cacheDelete key c)
  | none => (none, c)

/-- app.py lines 96-102, `SimpleCache.set`: store the payload under the
key with `expires_at = now + ttl` (dict assignment replaces any previous
entry). -/
def cacheSet (now ttl : Nat) (c : Cache) (key : Str) (data : StopDepartures) : Cache :=
  (key, ⟨data, now + ttl⟩) :: cacheDelete key c

/-- C7: after a `set` at time `now1`, a `get` of the same key at time
`now2` returns the payload with the cache-derived flag set iff `now2`
is still inside the TTL window, and `none` once the TTL has elapsed; a
within-window hit leaves the cache completely unchanged, and the stored
entry remains the original payload (the flagged value handed out is a
copy, not the stored object). -/
theorem cache_ttl_roundtrip (now1 now2 ttl : Nat) (c : Cache) (key : Str)
    (p : StopDepartures) :
    (cacheGet now2 (cacheSet now1 ttl c key p) key).1 =
      (if now2 < now1 + ttl then some { p with cached := true } else none)
    ∧ (cacheGet now2 (cacheSet now1 ttl c key p) key).2 =
      (if now2 < now1 + ttl then cacheSet now1 ttl c key p
        else cacheDelete key (cacheSet now1 ttl c key p))
    ∧ lookupCache key (cacheSet now1 ttl c key p) = some ⟨p, now1 + ttl⟩ := by
  have hl : lookupCache key (cacheSet now1 ttl c key p) = some ⟨p, now1 + ttl⟩ := by
    simp [cacheSet, lookupCache]
  refine ⟨?_, ?_, hl⟩ <;> by_cases h : now2 < now1 + ttl <;> simp [cacheGet, hl, h]

/-! ## Claims C8 and C9: the scraper's parsing core (app.py lines 157-396) -/

/-- app.py lines 298-321: parse one departure-time text.  `due_mins`
starts at 0; "due"/"now" anywhere in the lowered text gives 0; else a
text containing "min" gives the first run of digits (or leaves 0 when
there is none); else a text containing a colon is split and read as a
clock time via `now.replace(hour=..., minute=...)` — out-of-range or
non-integer parts raise and are swallowed, leaving 0; any other text
leaves 0.  The result is always a present integer. -/
def parse_time_text (nowSec : Nat) (txt : Str) : Int :=
  let low := lowerL txt
  if containsL low (chars ("due")) || containsL low (chars ("now")) then 0
  else if containsL low (chars ("min")) then
    match firstNumber txt with
    | some n => (n : Int)
    | none => 0
  else if txt.contains ':' then
    match pySplitChar ':' txt with
    | p0 :: p1 :: _ =>
      match pyIntParse p0, pyIntParse (p1.take 2) with
      | some hh, some mm =>
        if 0 ≤ hh ∧ hh ≤ 23 ∧ 0 ≤ mm ∧ mm ≤ 59 then
          (dueFromHM nowSec hh.toNat mm.toNat : Int)
        else 0
      | _, _ => 0
    | _ => 0
  else 0

/-- The DOM outcome for one candidate departure row: for each field, the
text its selector chain resolved (`none` when no selector matched; the
route/time/destination chains only accept non-empty stripped text, the
status chain takes the first element found). -/
structure RowEnv where
  routeText : Option Str
  timeText : Option Str
  destText : Option Str
  statusText : Option Str
  deriving Repr, DecidableEq

/-- app.py lines 264-364: build one `BusDeparture` from one row, or skip
the row when no route could be resolved.  `aimed` and `expected` are both
set to the raw time text; the status text is stripped, lowered and
keyword-matched with "Scheduled" as default. -/
def parse_row (nowSec : Nat) (r : RowEnv) : Option BusDeparture :=
  match r.routeText with
  | none => none
  | some route =>
    let due : Int :=
      match r.timeText with
      | none => 0
      | some t => parse_time_text nowSec t
    let status : Str :=
      match r.statusText with
      | none => chars ("Scheduled")
      | some t =>
        let tl := lowerL (pyStrip t)
        if tl.isEmpty then chars ("Scheduled")
        else if containsL tl (chars ("late")) || containsL tl (chars ("delayed")) then
          chars ("Late")
        else if containsL tl (chars ("early")) then chars ("Early")
        else if containsL tl (chars ("on time")) then chars ("On time")
        else chars ("Scheduled")
    some { route := route, due_mins := due, aimed := r.timeText, expected := r.timeText,
           destination := r.destText, status := status }

/-- An exception raised inside the scrape's try block (during
navigation/search, before any row was parsed): the `asyncio.TimeoutError`
handler or the catch-all handler. -/
inductive ScrapeInterrupt where
  | timeoutExn
  | otherExn (msg : Str)
  deriving Repr, DecidableEq

/-- The page environment one scrape sees: an exception during
navigation/search if any, the resolved stop-name text, and the candidate
departure-row elements. -/
structure ScrapeEnv where
  interrupt : Option ScrapeInterrupt
  stopName : Option Str
  rows : List RowEnv
  deriving Repr, DecidableEq

/-- app.py lines 157-396, `scrape_lothian_stop` (pure core): at most the
first 10 rows are parsed, rows without a route are skipped; when the try
block raised, the handlers record a diagnostic string; when extraction
produced no departures, the fixed diagnostic is recorded; the function
always returns a `StopDepartures`, never an exception. -/
def scrape_lothian_stop (nowSec : Nat) (nowIso : Str) (stop_code : Str)
    (env : ScrapeEnv) : StopDepartures :=
  match env.interrupt with
  | some .timeoutExn =>
    { stop_code := stop_code, stop_name := none, generated_at := nowIso, departures := []
      error := some (chars ("Timeout while fetching stop ") ++ stop_code), cached := false }
  | some (.otherExn msg) =>
    { stop_code := stop_code, stop_name := none, generated_at := nowIso, departures := []
      error := some (chars ("Error scraping stop ") ++ stop_code ++ chars (": ") ++ msg)
      cached := false }
  | none =>
    let deps := (env.rows.take 10).filterMap (parse_row nowSec)
    { stop_code := stop_code, stop_name := env.stopName, generated_at := nowIso
      departures := deps
      error :=
        if deps.isEmpty then
          some (chars ("No departure data found - website structure may have changed"))
        else none
      cached := false }

/-- C9: whenever a scrape extracts zero departures — whether because the
try block raised or because no selector produced a parsable row — the
returned value still is a structurally valid `StopDepartures` for the
requested stop, whose `error` field carries a non-empty descriptive
string; no exception reaches the caller (the embedding is a total
function into `StopDepartures`). -/
theorem scrape_zero_rows_error (nowSec : Nat) (nowIso stop_code : Str) (env : ScrapeEnv)
    (h : (scrape_lothian_stop nowSec nowIso stop_code env).departures = []) :
    ∃ e, (scrape_lothian_stop nowSec nowIso stop_code env).error = some e
      ∧ e ≠ []
      ∧ (scrape_lothian_stop nowSec nowIso stop_code env).stop_code = stop_code
      ∧ (scrape_lothian_stop nowSec nowIso stop_code env).cached = false := by
  cases hi : env.interrupt with
  | none =>
    have h2 : (env.rows.take 10).filterMap (parse_row nowSec) = [] := by
      simpa [scrape_lothian_stop, hi] using h
    refine ⟨chars ("No departure data found - website structure may have changed"),
      ?_, by decide, ?_, ?_⟩ <;> simp [scrape_lothian_stop, hi, h2]
  | some exn =>
    cases exn with
    | timeoutExn =>
      refine ⟨chars ("Timeout while fetching stop ") ++ stop_code, ?_, ?_, ?_, ?_⟩
      · simp [scrape_lothian_stop, hi]
      · intro he
        rcases List.append_eq_nil.mp he with ⟨h1, _⟩
        exact absurd h1 (by decide)
      · simp [scrape_lothian_stop, hi]
      · simp [scrape_lothian_stop, hi]
    | otherExn msg =>
      refine ⟨chars ("Error scraping stop ") ++ stop_code ++ chars (": ") ++ msg,
        ?_, ?_, ?_, ?_⟩
      · simp [scrape_lothian_stop, hi]
      · intro he
        rcases List.append_eq_nil.mp he with ⟨h1, _⟩
        rcases List.append_eq_nil.mp h1 with ⟨h2, _⟩
        rcases List.append_eq_nil.mp h2 with ⟨h3, _⟩
        exact absurd h3 (by decide)
      · simp [scrape_lothian_stop, hi]
      · simp [scrape_lothian_stop, hi]

/-- The zero-rows theorem applied to a scrape whose page produced no
candidate rows at all: the fixed diagnostic string comes back. -/
theorem scrape_zero_rows_error_witness :
    ∃ e, (scrape_lothian_stop 30000 (chars ("2026-10-12T08:20:00")) (chars ("36232"))
        ⟨none, none, []⟩).error = some e
      ∧ e ≠ []
      ∧ (scrape_lothian_stop 30000 (chars ("2026-10-12T08:20:00")) (chars ("36232"))
        ⟨none, none, []⟩).stop_code = chars ("36232")
      ∧ (scrape_lothian_stop 30000 (chars ("2026-10-12T08:20:00")) (chars ("36232"))
        ⟨none, none, []⟩).cached = false :=
  scrape_zero_rows_error 30000 (chars ("2026-10-12T08:20:00")) (chars ("36232"))
    ⟨none, none, []⟩ (by decide)

/-- C8 fails in its absent-value part: `BusDeparture.due_mins` is a
required plain integer, and for the unrecognized time text "soon" the
scraper emits the present value 0 — indistinguishable from a genuinely
due-now bus — instead of an absent due time. -/
theorem time_text_absent_counterexample :
    parse_row 0 ⟨some (chars ("44")), some (chars ("soon")), none, none⟩ =
      some { route := chars ("44"), due_mins := 0, aimed := some (chars ("soon")),
             expected := some (chars ("soon")), destination := none,
             status := chars ("Scheduled") }
    ∧ parse_time_text 0 (chars ("soon")) = parse_time_text 0 (chars ("due")) := by
  decide

/-- C8 amended: the parsed due time is never negative; text containing
"due" or "now" yields 0; text containing "min" (and neither of those)
yields the first run of digits, or 0 when there is none; a clock time
already in the past rolls to the next day ("08:05" evaluated at 08:10:00
yields 1435); and unrecognized time text yields the present default 0 —
not an absent value — without failing the row. -/
theorem time_text_amended (nowSec : Nat) (txt : Str) :
    0 ≤ parse_time_text nowSec txt
    ∧ (containsL (lowerL txt) (chars ("due")) = true ∨
        containsL (lowerL txt) (chars ("now")) = true →
        parse_time_text nowSec txt = 0)
    ∧ (containsL (lowerL txt) (chars ("due")) = false →
        containsL (lowerL txt) (chars ("now")) = false →
        containsL (lowerL txt) (chars ("min")) = true →
        parse_time_text nowSec txt = ((firstNumber txt).getD 0 : Int))
    ∧ (containsL (lowerL txt) (chars ("due")) = false →
        containsL (lowerL txt) (chars ("now")) = false →
        containsL (lowerL txt) (chars ("min")) = false →
        txt.contains ':' = false →
        parse_time_text nowSec txt = 0)
    ∧ (∀ h m : Nat, (h * 60 + m) * 60 < nowSec →
        dueFromHM nowSec h m = ((h * 60 + m) * 60 + 86400 - nowSec) / 60)
    ∧ parse_time_text (8 * 3600 + 10 * 60) (chars ("08:05")) = 1435 := by
  refine ⟨?_, ?_, ?_, ?_, ?_, by decide⟩
  · unfold parse_time_text
    dsimp only
    repeat' split
    all_goals simp
  · intro h
    rcases h with h | h <;> simp [parse_time_text, h]
  · intro h1 h2 h3
    unfold parse_time_text
    dsimp only
    rw [if_neg (by simp [h1, h2]), if_pos h3]
    cases hn : firstNumber txt <;> simp
  · intro h1 h2 h3 h4
    unfold parse_time_text
    dsimp only
    rw [if_neg (by simp [h1, h2]), if_neg (by simp [h3]),
      if_neg (by intro hc; rw [hc] at h4; exact Bool.noConfusion h4)]
  · intro h m hlt
    simp [dueFromHM, hlt]

/-- The amended time-parse statement applied at the text "3 mins": the
min-branch hypotheses hold and the result is the extracted 3. -/
theorem time_text_amended_witness :
    parse_time_text 30000 (chars ("3 mins")) =
      ((firstNumber (chars ("3 mins"))).getD 0 : Int) :=
  (time_text_amended 30000 (chars ("3 mins"))).2.2.1 (by decide) (by decide) (by decide)

/-! ## Claim C10: the commute-day evaluator (coordinator.py lines 306-324) -/

/-- The calendar entity's state object as `hass.states.get` hands it
over: its `state` string and its `message` attribute. -/
structure CalState where
  stateVal : Str
  message : Option Str
  deriving Repr, DecidableEq

/-- coordinator.py lines 306-324, `_check_commute_day`: no configured
calendar entity (absent or empty string) defaults to True; a missing
state object or a state other than "on" gives False; otherwise the
event's `message` (or "") is lowered and the answer is
(any office keyword is a substring) and (no WFH keyword is a substring),
with both keyword lists split from comma-separated config, stripped,
lowered, empties dropped. -/
def check_commute_day (calendarEntity : Option Str) (st : Option CalState)
    (officeCfg wfhCfg : Str) : Bool :=
  match calendarEntity with
  | none => true
  | some ce =>
    if ce.isEmpty then true
    else
      match st with
      | none => false
      | some cs =>
        if cs.stateVal ≠ chars ("on") then false
        else
          let event_title := lowerL (cs.message.getD [])
          let office_keywords := splitCommaStripLower officeCfg
          let wfh_keywords := splitCommaStripLower wfhCfg
          let is_wfh := wfh_keywords.any (fun kw => containsL event_title kw)
          let is_office := office_keywords.any (fun kw => containsL event_title kw)
          is_office && !is_wfh

/-- C10: with no calendar entity configured (absent or empty) the answer
is true; with a configured entity whose state object is missing or not
"on" the answer is false; otherwise the answer is true iff some office
keyword is a substring of the lowered event text and no WFH keyword is —
so any WFH keyword match forces false regardless of office matches. -/
theorem commute_day_characterized (c : Str) (cs : CalState) (st : Option CalState)
    (officeCfg wfhCfg : Str) :
    check_commute_day none st officeCfg wfhCfg = true
    ∧ (c.isEmpty = true → check_commute_day (some c) st officeCfg wfhCfg = true)
    ∧ (c.isEmpty = false → check_commute_day (some c) none officeCfg wfhCfg = false)
    ∧ (c.isEmpty = false → cs.stateVal ≠ chars ("on") →
        check_commute_day (some c) (some cs) officeCfg wfhCfg = false)
    ∧ (c.isEmpty = false → cs.stateVal = chars ("on") →
        (check_commute_day (some c) (some cs) officeCfg wfhCfg = true ↔
          (∃ kw ∈ splitCommaStripLower officeCfg,
            containsL (lowerL (cs.message.getD [])) kw = true)
          ∧ ∀ kw ∈ splitCommaStripLower wfhCfg,
            containsL (lowerL (cs.message.getD [])) kw = false)) := by
  refine ⟨rfl, fun h => ?_, fun h => ?_, fun h hon => ?_, fun h hon => ?_⟩
  · simp [check_commute_day, h]
  · simp [check_commute_day, h]
  · simp [check_commute_day, h, hon]
  · simp only [check_commute_day, h, Bool.false_eq_true, if_false, hon, ne_eq,
      not_true_eq_false]
    constructor
    · intro hv
      rw [Bool.and_eq_true] at hv
      rcases hv with ⟨ho, hw⟩
      rcases List.any_eq_true.mp ho with ⟨kw, hmem, hkw⟩
      refine ⟨⟨kw, hmem, hkw⟩, fun kw2 hmem2 => ?_⟩
      cases hc : containsL (lowerL (cs.message.getD [])) kw2 with
      | false => rfl
      | true =>
        exfalso
        have hany : ((splitCommaStripLower wfhCfg).any fun kw =>
            containsL (lowerL (cs.message.getD [])) kw) = true :=
          List.any_eq_true.mpr ⟨kw2, hmem2, hc⟩
        rw [hany] at hw
        exact absurd hw (by decide)
    · rintro ⟨⟨kw, hmem, hkw⟩, hnw⟩
      rw [Bool.and_eq_true]
      refine ⟨List.any_eq_true.mpr ⟨kw, hmem, hkw⟩, ?_⟩
      cases hany : ((splitCommaStripLower wfhCfg).any fun kw =>
          containsL (lowerL (cs.message.getD [])) kw) with
      | false => rfl
      | true =>
        rcases List.any_eq_true.mp hany with ⟨kw2, hmem2, hkw2⟩
        rw [hnw kw2 hmem2] at hkw2
        exact Bool.noConfusion hkw2

/-- The characterization applied at the spec's WFH-precedence scenario:
event text "WFH - Office catchup" with office keyword "Office" and WFH
keyword "WFH" is not a commute day, while "Office day" is. -/
theorem commute_day_characterized_witness :
    check_commute_day (some (chars ("calendar.work_calendar")))
      (some ⟨chars ("on"), some (chars ("WFH - Office catchup"))⟩)
      (chars ("Office")) (chars ("WFH")) = false
    ∧ check_commute_day (some (chars ("calendar.work_calendar")))
      (some ⟨chars ("on"), some (chars ("Office day"))⟩)
      (chars ("Office")) (chars ("WFH")) = true := by
  constructor
  · have hiff := (commute_day_characterized (chars ("calendar.work_calendar"))
      ⟨chars ("on"), some (chars ("WFH - Office catchup"))⟩ none
      (chars ("Office")) (chars ("WFH"))).2.2.2.2 (by decide) (by decide)
    cases hv : check_commute_day (some (chars ("calendar.work_calendar")))
      (some ⟨chars ("on"), some (chars ("WFH - Office catchup"))⟩)
      (chars ("Office")) (chars ("WFH")) with
    | false => rfl
    | true =>
      exfalso
      have := hiff.mp hv
      revert this
      decide
  · exact ((commute_day_characterized (chars ("calendar.work_calendar"))
      ⟨chars ("on"), some (chars ("Office day"))⟩ none
      (chars ("Office")) (chars ("WFH"))).2.2.2.2 (by decide) (by decide)).mpr (by decide)

end CommuteBriefing
